import Mathlib

/-!
# Verification of the multimodal Q&A application (src/app.py)

Shallow embedding of the Streamlit application in `src/app.py`:

* image ingestion (`process_uploaded_image`, lines 53-70),
* the module-level upload handler (lines 119-135),
* session state (lines 38-43) and the Clear Conversation handler (lines 100-104),
* the ask-button handler (lines 148-204),
* conversation-history rendering (lines 210-211).

External collaborators (the PIL codec, the base64 encoder, the Gemini remote
call, the clock) are modelled as explicit parameters or abstract data, as the
spec declares them opaque.  Python `str.strip()` is modelled by `pyStrip`
below; machine floats (`time.time()` values, temperature) are modelled by
`Rat`, since no claim depends on rounding.
-/

/-- Whitespace predicate used to model Python `str.strip()` (which strips
Unicode whitespace; the claims only involve ASCII blanks). -/
def isWS (c : Char) : Bool := c.isWhitespace

/-- Drop whitespace from the right end of a character list. -/
def dropWhileRight (p : Char → Bool) (l : List Char) : List Char :=
  (l.reverse.dropWhile p).reverse

/-- Model of Python `str.strip()`: remove leading and trailing whitespace. -/
def pyStrip (s : String) : String :=
  ⟨dropWhileRight isWS (s.data.dropWhile isWS)⟩

/-- A decoded in-memory bitmap as produced by the PIL codec (opaque external
collaborator): a color `mode` string (PIL: "RGB", "RGBA", "L", "P", ...) and
pixel dimensions. -/
structure Bitmap where
  mode : String
  width : Nat
  height : Nat
deriving Repr, DecidableEq

/-- Modelled external codec call `image.convert("RGB")` (src/app.py line 65):
PIL conversion re-projects the color space to three-channel RGB and keeps the
pixel dimensions. -/
def convertRGB (img : Bitmap) : Bitmap :=
  { img with mode := "RGB" }

/-- An uploaded file at the upload boundary: a declared size in bytes and the
raw byte content (abstract). -/
structure UploadedFile where
  size : Nat
  bytes : List Nat
deriving Repr, DecidableEq

/-- The 10 MiB upload ceiling of src/app.py line 56. -/
def MAX_UPLOAD_BYTES : Nat := 10 * 1024 * 1024

/-- Ingestion-time errors: the two distinct error messages of
`process_uploaded_image` (src/app.py lines 57 and 69). -/
inductive IngestError where
  | SizeExceeded
  | DecodeError
deriving Repr, DecidableEq

/-- `process_uploaded_image` (src/app.py lines 53-70).  `decode` is the opaque
PIL `Image.open` codec, passed explicitly: it returns `some` bitmap for a
supported encoding and `none` (an exception in the source) otherwise.
The size check (`uploaded_file.size > 10 * 1024 * 1024`) precedes the decode;
a non-RGB mode is converted to RGB. -/
def process_uploaded_image (decode : List Nat → Option Bitmap)
    (uploaded_file : UploadedFile) : Except IngestError Bitmap :=
  if uploaded_file.size > MAX_UPLOAD_BYTES then
    .error .SizeExceeded
  else
    match decode uploaded_file.bytes with
    | none => .error .DecodeError
    | some image =>
      if image.mode ≠ "RGB" then .ok (convertRGB image) else .ok image

/-- A conversation entry as appended at src/app.py lines 184-189. -/
structure ConversationEntry where
  question : String
  answer : String
  response_time : Rat
  timestamp : String
deriving Repr, DecidableEq

/-- The session state of src/app.py lines 38-43. -/
structure SessionState where
  conversation_history : List ConversationEntry
  current_image : Option Bitmap
  current_image_base64 : Option String
deriving Repr, DecidableEq

/-- Initial session state (src/app.py lines 38-43). -/
def initState : SessionState :=
  { conversation_history := [], current_image := none, current_image_base64 := none }

/-- The upload handler (src/app.py lines 119-135).  `toB64` is the opaque
`image_to_base64` JPEG/base64 encoder.  On a successful ingest the image and
its base64 form replace the current ones; on a failed ingest both are set to
`none` (lines 134-135).  The conversation history is never touched. -/
def uploadHandler (decode : List Nat → Option Bitmap) (toB64 : Bitmap → String)
    (uploaded_file : Option UploadedFile) (s : SessionState) : SessionState :=
  match uploaded_file with
  | none => s
  | some f =>
    match process_uploaded_image decode f with
    | .ok image =>
      { s with current_image := some image,
               current_image_base64 := some (toB64 image) }
    | .error _ =>
      { s with current_image := none, current_image_base64 := none }

/-- The Clear Conversation handler (src/app.py lines 100-104). -/
def clearHandler (_s : SessionState) : SessionState :=
  { conversation_history := [], current_image := none, current_image_base64 := none }

/-- The spec operation `appendEntry` as performed inline by
`st.session_state.conversation_history.append(...)` (src/app.py line 184). -/
def appendEntry (s : SessionState) (e : ConversationEntry) : SessionState :=
  { s with conversation_history := s.conversation_history ++ [e] }

/-- Generation parameters built at src/app.py lines 161-165. -/
structure GenerationConfig where
  temperature : Rat
  top_k : Nat
  max_output_tokens : Nat
deriving Repr, DecidableEq

/-- Outcome of the single `model.generate_content` call: either an exception
during the call (or while reading `.text`), or a reply whose `.text` field is
a possibly absent string (`none` models Python `None`). -/
inductive RemoteOutcome where
  | raise (msg : String)
  | reply (text : Option String)
deriving Repr, DecidableEq

/-- Observable outcome of one run of the ask-button handler. -/
inductive AskOutcome where
  | emptyQuestion
  | noImage
  | success (e : ConversationEntry)
  | emptyResponse
  | remoteError (msg : String)
deriving Repr, DecidableEq

/-- The ask-button handler (src/app.py lines 148-204), for one button press.
`remote` is the opaque Gemini call; `startT`, `endT` the two `time.time()`
reads (line 152 and line 176); `ts` the completion wall-clock string of
line 188.  Returns the outcome, the new session state, and how many times the
remote model was invoked.  Paths:
* stripped-empty question: the guard `if ask_button and user_question.strip():`
  (line 150) fails, nothing runs (the spec taxonomy calls this
  `EmptyQuestion`);
* no current image (line 156): warning and `st.stop()`;
* the remote call raises (lines 202-204): error surfaced, state unchanged;
* `response.text` absent or empty (lines 199-200): error surfaced,
  state unchanged;
* otherwise the entry of lines 184-189 is appended. -/
def askHandler (remote : String → Bitmap → GenerationConfig → RemoteOutcome)
    (system_prompt : String) (temperature : Rat) (top_k : Nat)
    (user_question : String) (startT endT : Rat) (ts : String)
    (s : SessionState) : AskOutcome × SessionState × Nat :=
  if pyStrip user_question = "" then
    (.emptyQuestion, s, 0)
  else
    match s.current_image with
    | none => (.noImage, s, 0)
    | some image =>
      let generation_config : GenerationConfig :=
        { temperature := temperature, top_k := top_k, max_output_tokens := 1024 }
      let full_prompt :=
        system_prompt ++ "\n\nUser Question: " ++ pyStrip user_question
      match remote full_prompt image generation_config with
      | .raise msg => (.remoteError msg, s, 1)
      | .reply text =>
        let response_time := endT - startT
        match text with
        | some t =>
          if t ≠ "" then
            let entry : ConversationEntry :=
              { question := pyStrip user_question, answer := t,
                response_time := response_time, timestamp := ts }
            (.success entry, appendEntry s entry, 1)
          else
            (.emptyResponse, s, 1)
        | none => (.emptyResponse, s, 1)

/-- Conversation-history rendering (src/app.py lines 210-211): iterate over
`reversed(history)` with index `i`, labelling each entry
`f"Q&A #{len(history) - i} - {entry.timestamp}"`. -/
def renderHistory (h : List ConversationEntry) : List (String × ConversationEntry) :=
  h.reverse.enum.map
    (fun p => ("Q&A #" ++ toString (h.length - p.1) ++ " - " ++ p.2.timestamp, p.2))

/-- The spec-side description of history rendering (§4.4 / §8): each entry
labeled with its 1-based position in chronological insertion order, presented
in reverse-chronological order.  Written from the spec's words, to be compared
with `renderHistory`, which is written from the source. -/
def chronoLabeled (h : List ConversationEntry) : List (String × ConversationEntry) :=
  (h.enum.map
    (fun p => ("Q&A #" ++ toString (p.1 + 1) ++ " - " ++ p.2.timestamp, p.2))).reverse

/-- Well-formedness of a history entry: question non-empty after stripping,
answer non-empty. -/
def entryWF (e : ConversationEntry) : Prop :=
  pyStrip e.question ≠ "" ∧ e.answer ≠ ""

/-- Every entry of the conversation history is well-formed. -/
def stateWF (s : SessionState) : Prop :=
  ∀ e ∈ s.conversation_history, entryWF e

/-! ## Helper lemmas -/

theorem dropWhile_dropWhile (p : Char → Bool) (l : List Char) :
    (l.dropWhile p).dropWhile p = l.dropWhile p := by
  induction l with
  | nil => rfl
  | cons c cs ih =>
    by_cases h : p c
    · simp [List.dropWhile, h, ih]
    · simp [List.dropWhile, h]

theorem dropWhile_eq_self_of_head (p : Char → Bool) (l : List Char)
    (h : ∀ c ∈ l.head?, p c = false) : l.dropWhile p = l := by
  cases l with
  | nil => rfl
  | cons c cs =>
    have hc : p c = false := h c (by simp)
    simp [List.dropWhile, hc]

theorem head_dropWhile_false (p : Char → Bool) (l : List Char) :
    ∀ c ∈ (l.dropWhile p).head?, p c = false := by
  induction l with
  | nil => simp
  | cons c cs ih =>
    by_cases h : p c
    · simpa [List.dropWhile, h] using ih
    · intro d hd
      simp [List.dropWhile, h] at hd
      simpa [hd] using h

theorem dropWhileRight_prefix_self (p : Char → Bool) (l : List Char) :
    dropWhileRight p l <+: l := by
  unfold dropWhileRight
  have h := List.dropWhile_suffix (l := l.reverse) p
  exact List.reverse_suffix.mp (by simpa using h)

theorem dropWhileRight_idem (p : Char → Bool) (l : List Char) :
    dropWhileRight p (dropWhileRight p l) = dropWhileRight p l := by
  unfold dropWhileRight
  simp [dropWhile_dropWhile]

theorem prefix_head_eq {l₁ l₂ : List Char} (h : l₁ <+: l₂) (hne : l₁ ≠ []) :
    l₁.head? = l₂.head? := by
  obtain ⟨t, rfl⟩ := h
  cases l₁ with
  | nil => exact absurd rfl hne
  | cons a as => rfl

/-- Python `str.strip()` is idempotent. -/
theorem pyStrip_idem (s : String) : pyStrip (pyStrip s) = pyStrip s := by
  unfold pyStrip
  congr 1
  set u := s.data.dropWhile isWS with hu
  set r := dropWhileRight isWS u with hr
  have hdw : r.dropWhile isWS = r := by
    rcases eq_or_ne r [] with h | h
    · simp [h]
    · apply dropWhile_eq_self_of_head
      have hpre : r <+: u := hr ▸ dropWhileRight_prefix_self isWS u
      have hh : r.head? = u.head? := prefix_head_eq hpre h
      rw [hh, hu]
      exact head_dropWhile_false isWS s.data
  rw [show (⟨r⟩ : String).data = r from rfl, hdw, hr, dropWhileRight_idem]

/-- The upload handler never touches the conversation history. -/
theorem uploadHandler_history (decode : List Nat → Option Bitmap)
    (toB64 : Bitmap → String) (f : Option UploadedFile) (s : SessionState) :
    (uploadHandler decode toB64 f s).conversation_history =
      s.conversation_history := by
  cases f with
  | none => rfl
  | some file =>
    cases h : process_uploaded_image decode file <;> simp [uploadHandler, h]

/-- Complete case analysis of one run of the ask-button handler. -/
theorem askHandler_cases (remote : String → Bitmap → GenerationConfig → RemoteOutcome)
    (sp : String) (temp : Rat) (tk : Nat) (q : String) (startT endT : Rat)
    (ts : String) (s : SessionState) :
    (pyStrip q = "" ∧
      askHandler remote sp temp tk q startT endT ts s = (.emptyQuestion, s, 0)) ∨
    (pyStrip q ≠ "" ∧ s.current_image = none ∧
      askHandler remote sp temp tk q startT endT ts s = (.noImage, s, 0)) ∨
    (∃ msg, askHandler remote sp temp tk q startT endT ts s =
      (.remoteError msg, s, 1)) ∨
    (askHandler remote sp temp tk q startT endT ts s = (.emptyResponse, s, 1)) ∨
    (∃ t, t ≠ "" ∧ pyStrip q ≠ "" ∧
      askHandler remote sp temp tk q startT endT ts s =
        (.success { question := pyStrip q, answer := t,
                    response_time := endT - startT, timestamp := ts },
         appendEntry s { question := pyStrip q, answer := t,
                         response_time := endT - startT, timestamp := ts }, 1)) := by
  by_cases hq : pyStrip q = ""
  · exact Or.inl ⟨hq, by simp [askHandler, hq]⟩
  · cases himg : s.current_image with
    | none => exact Or.inr (Or.inl ⟨hq, rfl, by simp [askHandler, hq, himg]⟩)
    | some image =>
      cases hr : remote (sp ++ "\n\nUser Question: " ++ pyStrip q) image
          { temperature := temp, top_k := tk, max_output_tokens := 1024 } with
      | raise msg =>
        exact Or.inr (Or.inr (Or.inl ⟨msg, by simp [askHandler, hq, himg, hr]⟩))
      | reply text =>
        cases text with
        | none =>
          exact Or.inr (Or.inr (Or.inr (Or.inl (by simp [askHandler, hq, himg, hr]))))
        | some t =>
          by_cases ht : t = ""
          · exact Or.inr (Or.inr (Or.inr (Or.inl
              (by simp [askHandler, hq, himg, hr, ht]))))
          · exact Or.inr (Or.inr (Or.inr (Or.inr
              ⟨t, ht, hq, by simp [askHandler, appendEntry, hq, himg, hr, ht]⟩)))

/-- The rendering of the source agrees with the spec-side description:
reverse-chronological order, labels by 1-based chronological position. -/
theorem renderHistory_eq_chronoLabeled (h : List ConversationEntry) :
    renderHistory h = chronoLabeled h := by
  unfold renderHistory chronoLabeled
  apply List.ext_getElem
  · simp
  · intro i h1 h2
    simp only [List.getElem_map, List.getElem_enum, List.getElem_reverse,
      List.length_map, List.enum_length, List.length_reverse] at h1 h2 ⊢
    have he : h.length - 1 - i + 1 = h.length - i := by omega
    rw [he]

/-! ## Claims -/

/-- C1 (counterexample): the claim says a failing upload leaves `currentImage`
at its prior value.  It does not: with a prior image present, an oversized
upload resets `currentImage` to absent (src/app.py lines 133-135). -/
theorem C1_counterexample :
    (uploadHandler (fun _ => none) (fun _ => "")
        (some { size := 10 * 1024 * 1024 + 1, bytes := [] })
        { conversation_history := [],
          current_image := some { mode := "RGB", width := 2, height := 2 },
          current_image_base64 := some "img" }).current_image ≠
      ({ conversation_history := [],
         current_image := some { mode := "RGB", width := 2, height := 2 },
         current_image_base64 := some "img" } : SessionState).current_image := by
  decide

/-- C1 (amended): when image ingestion fails, processing aborts for that
upload only and `conversationHistory` is unchanged, but `currentImage` (and
its base64 copy) are reset to absent rather than kept at their prior value. -/
theorem C1_upload_failure_state (decode : List Nat → Option Bitmap)
    (toB64 : Bitmap → String) (f : UploadedFile) (s : SessionState)
    (err : IngestError) (hfail : process_uploaded_image decode f = .error err) :
    (uploadHandler decode toB64 (some f) s).conversation_history =
        s.conversation_history ∧
    (uploadHandler decode toB64 (some f) s).current_image = none ∧
    (uploadHandler decode toB64 (some f) s).current_image_base64 = none := by
  simp [uploadHandler, hfail]

/-- C1 (witness): a concrete oversized upload on a state holding one image. -/
theorem C1_witness :
    (uploadHandler (fun _ => none) (fun _ => "")
        (some { size := 10 * 1024 * 1024 + 1, bytes := [] })
        { conversation_history := [],
          current_image := some { mode := "RGB", width := 2, height := 2 },
          current_image_base64 := some "img" }).conversation_history =
      ({ conversation_history := [],
         current_image := some { mode := "RGB", width := 2, height := 2 },
         current_image_base64 := some "img" } : SessionState).conversation_history ∧

    (uploadHandler (fun _ => none) (fun _ => "")
        (some { size := 10 * 1024 * 1024 + 1, bytes := [] })
        { conversation_history := [],
          current_image := some { mode := "RGB", width := 2, height := 2 },
          current_image_base64 := some "img" }).current_image = none ∧
    (uploadHandler (fun _ => none) (fun _ => "")
        (some { size := 10 * 1024 * 1024 + 1, bytes := [] })
        { conversation_history := [],
          current_image := some { mode := "RGB", width := 2, height := 2 },
          current_image_base64 := some "img" }).current_image_base64 = none :=
  C1_upload_failure_state _ _ _ _ IngestError.SizeExceeded rfl

/-- C2 (counterexample): the claim says every declared size at or above
10 MiB fails with `SizeExceeded`.  At exactly 10 MiB the guard
`size > 10 * 1024 * 1024` (src/app.py line 56) is false, so decoding
proceeds: ingest does not fail with `SizeExceeded`. -/
theorem C2_counterexample :
    process_uploaded_image (fun _ => some { mode := "RGB", width := 2, height := 2 })
        { size := 10 * 1024 * 1024, bytes := [] } ≠
      Except.error IngestError.SizeExceeded := by
  have h : process_uploaded_image
      (fun _ => some { mode := "RGB", width := 2, height := 2 })
      { size := 10 * 1024 * 1024, bytes := [] } =
      .ok { mode := "RGB", width := 2, height := 2 } := rfl
  rw [h]
  simp

/-- C2 (amended): for every uploaded input whose declared size is strictly
above 10 MiB, ingest fails with `SizeExceeded`, for every decoder — so
decoding is never attempted and the ceiling is enforced before decode. -/
theorem C2_size_ceiling (decode : List Nat → Option Bitmap) (f : UploadedFile)
    (h : MAX_UPLOAD_BYTES < f.size) :
    process_uploaded_image decode f = .error .SizeExceeded := by
  simp [process_uploaded_image, h]

/-- C2 (witness): one byte above the ceiling, with a decoder that would fail —
the size error still wins. -/
theorem C2_witness :
    MAX_UPLOAD_BYTES < 10 * 1024 * 1024 + 1 ∧
    process_uploaded_image (fun _ => none)
        { size := 10 * 1024 * 1024 + 1, bytes := [] } =
      .error .SizeExceeded :=
  ⟨by decide, C2_size_ceiling _ _ (by decide)⟩

/-- C9: every upload within the size ceiling whose bytes the codec decodes
yields a three-channel (RGB) bitmap with the source image's dimensions. -/
theorem C9_ingest_success (decode : List Nat → Option Bitmap) (f : UploadedFile)
    (img : Bitmap) (hsize : f.size < MAX_UPLOAD_BYTES)
    (hdec : decode f.bytes = some img) :
    ∃ out, process_uploaded_image decode f = .ok out ∧
      out.mode = "RGB" ∧ out.width = img.width ∧ out.height = img.height := by
  have hnot : ¬ f.size > MAX_UPLOAD_BYTES := by omega
  by_cases hm : img.mode = "RGB"
  · exact ⟨img, by simp [process_uploaded_image, hnot, hdec, hm], hm, rfl, rfl⟩
  · exact ⟨convertRGB img,
      by simp [process_uploaded_image, hnot, hdec, hm], rfl, rfl, rfl⟩

/-- C9 (witness): a 2×2 RGBA image of 4 declared bytes is accepted and
normalized to RGB with the same dimensions. -/
theorem C9_witness :
    ∃ out, process_uploaded_image
        (fun _ => some { mode := "RGBA", width := 2, height := 2 })
        { size := 4, bytes := [] } = .ok out ∧
      out.mode = "RGB" ∧ out.width = 2 ∧ out.height = 2 :=
  C9_ingest_success _ _ { mode := "RGBA", width := 2, height := 2 }
    (by decide) rfl

/-- C3 (counterexample): the claim says every successful ask has a
non-negative `responseTimeSeconds` because the clock is monotonic.  The code
reads `time.time()` — a wall clock that may step backwards — so a run whose
second read is smaller than the first yields a successful entry with a
negative response time. -/
theorem C3_counterexample :
    (askHandler (fun _ _ _ => RemoteOutcome.reply (some "The image is red."))
        "sys" 1 20 "What color?" 1 0 "12:00:00"
        { conversation_history := [],
          current_image := some { mode := "RGB", width := 2, height := 2 },
          current_image_base64 := none }).1 =
      AskOutcome.success
        { question := "What color?", answer := "The image is red.",
          response_time := -1, timestamp := "12:00:00" } ∧
    ¬ (0 ≤ (-1 : Rat)) := by
  constructor
  · have hq : pyStrip "What color?" = "What color?" := by decide
    simp [askHandler, appendEntry, hq]
  · norm_num

/-- C3 (amended): for every successful ask, the entry's `response_time`
equals the end read minus the start read of the clock; it is non-negative
whenever the end read is at least the start read (which `time.time()` does
not guarantee by construction). -/
theorem C3_response_time (remote : String → Bitmap → GenerationConfig → RemoteOutcome)
    (sp : String) (temp : Rat) (tk : Nat) (q : String) (startT endT : Rat)
    (ts : String) (s : SessionState) (e : ConversationEntry)
    (h : (askHandler remote sp temp tk q startT endT ts s).1 = .success e) :
    e.response_time = endT - startT ∧ (startT ≤ endT → 0 ≤ e.response_time) := by
  rcases askHandler_cases remote sp temp tk q startT endT ts s with
    ⟨-, hc⟩ | ⟨-, -, hc⟩ | ⟨msg, hc⟩ | hc | ⟨t, ht, hq, hc⟩ <;> rw [hc] at h
  · exact absurd h (by simp)
  · exact absurd h (by simp)
  · exact absurd h (by simp)
  · exact absurd h (by simp)
  · simp only [AskOutcome.success.injEq] at h
    subst h
    exact ⟨rfl, fun hle => sub_nonneg.mpr hle⟩

/-- C3 (amended, witness): concrete successful ask with reads 0 then 1. -/
theorem C3_witness :
    ({ question := "What color?", answer := "The image is red.",
       response_time := 1, timestamp := "12:00:00" } : ConversationEntry).response_time
        = 1 - 0 ∧
    ((0 : Rat) ≤ 1 →
      0 ≤ ({ question := "What color?", answer := "The image is red.",
             response_time := 1, timestamp := "12:00:00" } : ConversationEntry).response_time) :=
  C3_response_time (fun _ _ _ => RemoteOutcome.reply (some "The image is red."))
    "sys" 1 20 "What color?" 0 1 "12:00:00"
    { conversation_history := [],
      current_image := some { mode := "RGB", width := 2, height := 2 },
      current_image_base64 := none }
    { question := "What color?", answer := "The image is red.",
      response_time := 1, timestamp := "12:00:00" }
    (by
      have hq : pyStrip "What color?" = "What color?" := by decide
      simp [askHandler, appendEntry, hq])

/-- C4: asking a non-empty question with no current image yields `NoImage`,
the remote model is invoked zero times, and the session state — in particular
the history length — is unchanged. -/
theorem C4_no_image (remote : String → Bitmap → GenerationConfig → RemoteOutcome)
    (sp : String) (temp : Rat) (tk : Nat) (q : String) (startT endT : Rat)
    (ts : String) (s : SessionState)
    (hq : pyStrip q ≠ "") (himg : s.current_image = none) :
    askHandler remote sp temp tk q startT endT ts s = (.noImage, s, 0) := by
  simp [askHandler, hq, himg]

/-- C4 (witness): concrete ask on the initial (image-less) state. -/
theorem C4_witness :
    askHandler (fun _ _ _ => RemoteOutcome.raise "net") "sys" 1 20
      "What color?" 0 1 "12:00:00" initState = (.noImage, initState, 0) :=
  C4_no_image _ _ _ _ _ _ _ _ _ (by decide) rfl

/-- C5: for every image, parameters and remote behaviour, a question that is
empty after stripping leaves the handler at the guard: outcome
`emptyQuestion`, zero remote invocations, state (hence history) unchanged. -/
theorem C5_empty_question (remote : String → Bitmap → GenerationConfig → RemoteOutcome)
    (sp : String) (temp : Rat) (tk : Nat) (q : String) (startT endT : Rat)
    (ts : String) (s : SessionState) (hq : pyStrip q = "") :
    askHandler remote sp temp tk q startT endT ts s = (.emptyQuestion, s, 0) := by
  simp [askHandler, hq]

/-- C5 (witness): whitespace-only question, with an image present and a
remote that would answer. -/
theorem C5_witness :
    askHandler (fun _ _ _ => RemoteOutcome.reply (some "hi")) "sys" 1 20
      "   " 0 1 "12:00:00"
      { conversation_history := [],
        current_image := some { mode := "RGB", width := 2, height := 2 },
        current_image_base64 := none } =
      (.emptyQuestion,
       { conversation_history := [],
         current_image := some { mode := "RGB", width := 2, height := 2 },
         current_image_base64 := none }, 0) :=
  C5_empty_question _ _ _ _ _ _ _ _ _ (by decide)

/-- C6: whenever the run ends in `remoteError` (the call raised) or
`emptyResponse` (no textual content), the session state is returned
unchanged — no entry is appended — and the remote model was invoked exactly
once (no automatic retry). -/
theorem C6_failure_no_mutation (remote : String → Bitmap → GenerationConfig → RemoteOutcome)
    (sp : String) (temp : Rat) (tk : Nat) (q : String) (startT endT : Rat)
    (ts : String) (s : SessionState)
    (hfail : (∃ msg, (askHandler remote sp temp tk q startT endT ts s).1 =
        .remoteError msg) ∨
      (askHandler remote sp temp tk q startT endT ts s).1 = .emptyResponse) :
    (askHandler remote sp temp tk q startT endT ts s).2.1 = s ∧
    (askHandler remote sp temp tk q startT endT ts s).2.2 = 1 := by
  rcases askHandler_cases remote sp temp tk q startT endT ts s with
    ⟨-, hc⟩ | ⟨-, -, hc⟩ | ⟨msg, hc⟩ | hc | ⟨t, -, -, hc⟩ <;>
    rw [hc] at hfail ⊢
  · simp at hfail
  · simp at hfail
  · simp
  · simp
  · simp at hfail

/-- C6 (witness): a remote call that raises, on a state holding an image. -/
theorem C6_witness :
    (askHandler (fun _ _ _ => RemoteOutcome.raise "quota") "sys" 1 20
        "What color?" 0 1 "12:00:00"
        { conversation_history := [],
          current_image := some { mode := "RGB", width := 2, height := 2 },
          current_image_base64 := none }).2.1 =
      { conversation_history := [],
        current_image := some { mode := "RGB", width := 2, height := 2 },
        current_image_base64 := none } ∧
    (askHandler (fun _ _ _ => RemoteOutcome.raise "quota") "sys" 1 20
        "What color?" 0 1 "12:00:00"
        { conversation_history := [],
          current_image := some { mode := "RGB", width := 2, height := 2 },
          current_image_base64 := none }).2.2 = 1 :=
  C6_failure_no_mutation _ _ _ _ _ _ _ _ _ (Or.inl ⟨"quota", by decide⟩)

/-- C7: entries inserted as [E1, E2, E3] are displayed as [E3, E2, E1], each
labeled with its 1-based chronological position ("#3", "#2", "#1"); and in
general the source rendering equals the spec-side description (reverse order,
chronological labels regardless of display position). -/
theorem C7_display_order (E1 E2 E3 : ConversationEntry) :
    renderHistory [E1, E2, E3] =
      [("Q&A #3 - " ++ E3.timestamp, E3),
       ("Q&A #2 - " ++ E2.timestamp, E2),
       ("Q&A #1 - " ++ E1.timestamp, E1)] ∧
    ∀ h : List ConversationEntry, renderHistory h = chronoLabeled h := by
  refine ⟨?_, renderHistory_eq_chronoLabeled⟩
  simp [renderHistory, List.enum, List.enumFrom]
  refine ⟨rfl, rfl, rfl⟩

/-- C8: `clear` empties the history and removes the image for every prior
state, is idempotent, and clearing right after an append still leaves the
history empty and the image absent. -/
theorem C8_clear (s : SessionState) (e : ConversationEntry) :
    (clearHandler s).current_image = none ∧
    (clearHandler s).conversation_history = [] ∧
    clearHandler (clearHandler s) = clearHandler s ∧
    clearHandler (appendEntry s e) = clearHandler s :=
  ⟨rfl, rfl, rfl, rfl⟩

/-- C10: in the initial state and after any handler run, every history entry
has a question that is non-empty after stripping and a non-empty answer:
entries are only appended behind the non-empty-question guard with the
stripped question and a non-empty response text, and the only other mutation
is the bulk clear. -/
theorem C10_history_invariant :
    stateWF initState ∧
    (∀ s, stateWF (clearHandler s)) ∧
    (∀ decode toB64 f s, stateWF s → stateWF (uploadHandler decode toB64 f s)) ∧
    (∀ remote sp temp tk q startT endT ts s, stateWF s →
      stateWF (askHandler remote sp temp tk q startT endT ts s).2.1) := by
  refine ⟨?_, ?_, ?_, ?_⟩
  · intro e he
    simp [initState] at he
  · intro s e he
    simp [clearHandler] at he
  · intro decode toB64 f s hs e he
    rw [uploadHandler_history] at he
    exact hs e he
  · intro remote sp temp tk q startT endT ts s hs
    rcases askHandler_cases remote sp temp tk q startT endT ts s with
      ⟨-, hc⟩ | ⟨-, -, hc⟩ | ⟨m, hc⟩ | hc | ⟨t, ht, hq, hc⟩ <;> rw [hc]
    · exact hs
    · exact hs
    · exact hs
    · exact hs
    · intro e he
      simp [appendEntry] at he
      rcases he with he | rfl
      · exact hs e he
      · exact ⟨by rw [pyStrip_idem]; exact hq, ht⟩

/-- C10 (witness): the invariant holds for the state produced by a concrete
successful ask from a well-formed state. -/
theorem C10_witness :
    stateWF (askHandler (fun _ _ _ => RemoteOutcome.reply (some "The image is red."))
        "sys" 1 20 "What color?" 0 1 "12:00:00"
        { conversation_history := [],
          current_image := some { mode := "RGB", width := 2, height := 2 },
          current_image_base64 := none }).2.1 :=
  C10_history_invariant.2.2.2 _ _ _ _ _ _ _ _ _ (by simp [stateWF])
